import Mathlib

/-!
Shallow embedding of the provisioning / planning core of the
Yandex_Direct_AI repository (files
`src/advertising/professional_campaign_manager.py` and
`src/advertising/yandex_direct_integration.py`), together with theorems
settling the frozen claims about it.

Modelling conventions:
* Python numeric literals `0.6`, `0.3`, `0.1`, `1.2`, `0.9` are modelled as
  the exact rationals they denote; Python `int(x)` (truncation toward zero)
  is modelled by `pyInt`.
* Python exceptions are modelled by `Except String`; the error string
  records which exception the source raises there.
* Remote HTTP responses are inputs of the embedded functions: each embedded
  operation takes the (already decoded) response of the corresponding
  `_make_request` call as an `Except String _` value, `.error` meaning the
  request itself raised (transport failure or API-level error object).
-/

namespace YandexDirectAI

/-- Python `int(x)` on a real number: truncation toward zero. -/
def pyInt (q : ℚ) : ℤ := if 0 ≤ q then ⌊q⌋ else ⌈q⌉

/-! ### Budget allocation
Embedding of the `budget_allocation` dictionary built by
`ProfessionalCampaignManager._calculate_budget_and_forecast`
(`professional_campaign_manager.py`, lines 547-586).  The source computes
`int(business_info.budget_daily * 0.6)` and so on, with no validation of
the budget; the forecast part of the same function is not needed by any
claim and is not modelled. -/

structure BudgetAllocation where
  daily_budget : ℤ
  high_priority_percent : ℤ
  medium_priority_percent : ℤ
  low_priority_percent : ℤ
  high_priority_budget : ℤ
  medium_priority_budget : ℤ
  low_priority_budget : ℤ
deriving Repr, DecidableEq

/-- The budget-allocation part of `_calculate_budget_and_forecast`:
mirrors lines 556-564 of `professional_campaign_manager.py` field by
field.  There is no branch on the sign of `budget_daily` in the source. -/
def calculate_budget_allocation (budget_daily : ℤ) : BudgetAllocation :=
  { daily_budget := budget_daily
  , high_priority_percent := 60
  , medium_priority_percent := 30
  , low_priority_percent := 10
  , high_priority_budget := pyInt ((budget_daily : ℚ) * (6 / 10))
  , medium_priority_budget := pyInt ((budget_daily : ℚ) * (3 / 10))
  , low_priority_budget := pyInt ((budget_daily : ℚ) * (1 / 10)) }

/-! ### Bid optimization
Embedding of `YandexDirectAPIClient.optimize_keyword_bids`
(`yandex_direct_integration.py`, lines 251-289).  Input items are
dictionaries read with `keyword_data.get("bid", 0)` and
`keyword_data.get("keyword", "")`; a missing bid is therefore the number
0.  `change_percent = ((new_bid - current_bid) / current_bid) * 100`
raises `ZeroDivisionError` in Python when `current_bid` is 0. -/

structure KeywordBid where
  keyword : String
  bid : ℚ
deriving Repr, DecidableEq

structure OptimizedBid where
  keyword : String
  old_bid : ℚ
  new_bid : ℚ
  change_percent : ℚ
deriving Repr, DecidableEq

/-- One iteration of the loop body of `optimize_keyword_bids`. -/
def optimizeOneBid (target_position : ℤ) (kd : KeywordBid) :
    Except String OptimizedBid :=
  let new_bid : ℚ :=
    if target_position ≤ 3 then kd.bid * (12 / 10)
    else if target_position ≤ 6 then kd.bid
    else kd.bid * (9 / 10)
  if kd.bid = 0 then .error "ZeroDivisionError"
  else .ok { keyword := kd.keyword
           , old_bid := kd.bid
           , new_bid := new_bid
           , change_percent := ((new_bid - kd.bid) / kd.bid) * 100 }

/-- `optimize_keyword_bids`: the loop appends one optimized entry per
input entry in order, raising at the first entry whose current bid is 0. -/
def optimize_keyword_bids (keyword_bids : List KeywordBid)
    (target_position : ℤ) : Except String (List OptimizedBid) :=
  match keyword_bids with
  | [] => .ok []
  | kd :: rest =>
    match optimizeOneBid target_position kd with
    | .error e => .error e
    | .ok ob =>
      match optimize_keyword_bids rest target_position with
      | .error e => .error e
      | .ok obs => .ok (ob :: obs)

/-- The pure bid rule, for stating what `optimize_keyword_bids` computes on
lists of nonzero bids. -/
def bidRule (target_position : ℤ) (kd : KeywordBid) : OptimizedBid :=
  let new_bid : ℚ :=
    if target_position ≤ 3 then kd.bid * (12 / 10)
    else if target_position ≤ 6 then kd.bid
    else kd.bid * (9 / 10)
  { keyword := kd.keyword
  , old_bid := kd.bid
  , new_bid := new_bid
  , change_percent := ((new_bid - kd.bid) / kd.bid) * 100 }

/-! ### Resource creation and the provisioning orchestrator
Embedding of `create_campaign`, `create_ad_groups`, `create_keywords`,
`create_ads` and `YandexDirectCampaignManager.create_full_campaign_from_strategy`
(`yandex_direct_integration.py`, lines 373-447, 484-647 and 728-774).

Each `AddResults` item of a batch response either carries an `"Id"`, or an
`"Errors"` list, or neither (the source logs a warning and skips it). -/

inductive AddItem where
  | ok (id : ℤ)
  | err (msgs : List String)
  | other
deriving Repr, DecidableEq

/-- The id/error collection loop shared by all four `create_*` methods:
`"Id"` items append to the id list, `"Errors"` items extend the error
list, anything else is skipped. -/
def collectAddResults : List AddItem → List ℤ × List String
  | [] => ([], [])
  | AddItem.ok id :: rest =>
      let (ids, errs) := collectAddResults rest
      (id :: ids, errs)
  | AddItem.err msgs :: rest =>
      let (ids, errs) := collectAddResults rest
      (ids, msgs ++ errs)
  | AddItem.other :: rest => collectAddResults rest

/-- `create_campaign`: the response is `.error` when `_make_request`
raised, `.ok none` when the response has no `"AddResults"` key (the source
raises on that), `.ok (some items)` otherwise.  If any item carried
errors, the whole call raises and the collected ids are discarded. -/
def create_campaign (resp : Except String (Option (List AddItem))) :
    Except String (List ℤ) :=
  match resp with
  | .error e => .error e
  | .ok none => .error "Unexpected API response structure"
  | .ok (some items) =>
      if (collectAddResults items).2.isEmpty then .ok (collectAddResults items).1
      else .error "campaign creation errors"

/-- `create_ad_groups`: uses `result.get("AddResults", [])`, so a missing
key is an empty batch, and raises exactly when the collected error list is
nonempty. -/
def create_ad_groups (resp : Except String (List AddItem)) :
    Except String (List ℤ) :=
  match resp with
  | .error e => .error e
  | .ok items =>
      if (collectAddResults items).2.isEmpty then .ok (collectAddResults items).1
      else .error "ad group creation errors"

/-- `create_keywords` for one ad group: same shape as `create_ad_groups`. -/
def create_keywords (resp : Except String (List AddItem)) :
    Except String (List ℤ) :=
  match resp with
  | .error e => .error e
  | .ok items =>
      if (collectAddResults items).2.isEmpty then .ok (collectAddResults items).1
      else .error "keyword creation errors"

/-- `create_ads` for one ad group: same shape as `create_ad_groups`. -/
def create_ads (resp : Except String (List AddItem)) :
    Except String (List ℤ) :=
  match resp with
  | .error e => .error e
  | .ok items =>
      if (collectAddResults items).2.isEmpty then .ok (collectAddResults items).1
      else .error "ad creation errors"

/-- Configuration of one entry of `strategy_config["ad_groups"]`: the
orchestrator only inspects whether the per-group `keywords` and `ads`
lists are nonempty, and passes them to the API. -/
structure GroupConfig where
  keywords : List String
  ads : List String
deriving Repr, DecidableEq

/-- Responses the remote platform returns for the run, one per possible
request: the keyword/ad responses are indexed by the ad-group id the
request is made for. -/
structure DirectAPI where
  campaigns : Except String (Option (List AddItem))
  adgroups : Except String (List AddItem)
  keywords : ℤ → Except String (List AddItem)
  ads : ℤ → Except String (List AddItem)

/-- The requests `create_full_campaign_from_strategy` actually issues, in
order. -/
inductive APICall where
  | campaignsAdd
  | adgroupsAdd
  | keywordsAdd (groupId : ℤ)
  | adsAdd (groupId : ℤ)
deriving Repr, DecidableEq

/-- The keyword stage loop of `create_full_campaign_from_strategy`
(lines 743-747): `for i, group_id in enumerate(group_ids)`, calls
`create_keywords` when `i < len(groups_config)` and that group's keyword
list is nonempty; the first raising call aborts the whole run.  Returns
the outcome together with the keyword requests made. -/
def runKeywordStage (api : DirectAPI) :
    List ℤ → List GroupConfig → Except String Unit × List APICall
  | [], _ => (.ok (), [])
  | _ :: _, [] => (.ok (), [])
  | g :: gs, c :: cs =>
      if c.keywords.isEmpty then runKeywordStage api gs cs
      else
        match create_keywords (api.keywords g) with
        | .error e => (.error e, [APICall.keywordsAdd g])
        | .ok _ =>
            let (r, calls) := runKeywordStage api gs cs
            (r, APICall.keywordsAdd g :: calls)

/-- The ad stage loop of `create_full_campaign_from_strategy`
(lines 750-754), same shape as the keyword stage. -/
def runAdStage (api : DirectAPI) :
    List ℤ → List GroupConfig → Except String Unit × List APICall
  | [], _ => (.ok (), [])
  | _ :: _, [] => (.ok (), [])
  | g :: gs, c :: cs =>
      if c.ads.isEmpty then runAdStage api gs cs
      else
        match create_ads (api.ads g) with
        | .error e => (.error e, [APICall.adsAdd g])
        | .ok _ =>
            let (r, calls) := runAdStage api gs cs
            (r, APICall.adsAdd g :: calls)

/-- The summary dictionary returned on full success (lines 757-767). -/
structure CampaignSummary where
  campaign_id : ℤ
  groups_count : ℕ
deriving Repr, DecidableEq

/-- `create_full_campaign_from_strategy`: campaign, then ad groups, then
per-group keywords, then per-group ads; any exception propagates (the
`except` clause logs and re-raises).  `campaign_result["campaign_ids"][0]`
on an empty id list raises `IndexError`.  The second component records
every request issued before the run returned or raised. -/
def create_full_campaign_from_strategy (api : DirectAPI)
    (groups_config : List GroupConfig) :
    Except String CampaignSummary × List APICall :=
  match create_campaign api.campaigns with
  | .error e => (.error e, [APICall.campaignsAdd])
  | .ok [] => (.error "IndexError", [APICall.campaignsAdd])
  | .ok (cid :: _) =>
      match create_ad_groups api.adgroups with
      | .error e => (.error e, [APICall.campaignsAdd, APICall.adgroupsAdd])
      | .ok gids =>
          let (kr, kcalls) := runKeywordStage api gids groups_config
          match kr with
          | .error e =>
              (.error e,
                APICall.campaignsAdd :: APICall.adgroupsAdd :: kcalls)
          | .ok _ =>
              let (ar, acalls) := runAdStage api gids groups_config
              match ar with
              | .error e =>
                  (.error e,
                    APICall.campaignsAdd :: APICall.adgroupsAdd ::
                      (kcalls ++ acalls))
              | .ok _ =>
                  (.ok { campaign_id := cid, groups_count := gids.length },
                    APICall.campaignsAdd :: APICall.adgroupsAdd ::
                      (kcalls ++ acalls))

/-! ### JSON values and `_safe_json_parse`
Embedding of `ProfessionalCampaignManager._safe_json_parse`
(`professional_campaign_manager.py`, lines 695-708): the regex
`\x7b.*\x7d` with `re.DOTALL` (greedy) matches from the first opening
brace to the last closing brace of the text; the match is fed to
`json.loads`; any failure (no match, or malformed JSON) yields the empty
dict.  `json.loads` is modelled by a recursive-descent parser over the
JSON subset the system exchanges (objects, arrays, strings with
single-character escapes, decimal numbers, `true`/`false`/`null`;
`\u` escapes and exponent notation are not modelled). -/

/-- A decoded Python/JSON value. -/
inductive PyVal where
  | str (s : String)
  | num (q : ℚ)
  | bool (b : Bool)
  | null
  | arr (xs : List PyVal)
  | dict (kvs : List (String × PyVal))
deriving Repr

def quoteChar : Char := Char.ofNat 34
def backslashChar : Char := Char.ofNat 92
def lbrace : Char := Char.ofNat 123
def rbrace : Char := Char.ofNat 125

def isJsonWs (c : Char) : Bool :=
  c = ' ' || c = Char.ofNat 9 || c = Char.ofNat 10 || c = Char.ofNat 13

def skipWs (cs : List Char) : List Char := cs.dropWhile isJsonWs

/-- Single-character JSON string escapes. -/
def decodeEscape (c : Char) : Option Char :=
  if c = quoteChar then some quoteChar
  else if c = backslashChar then some backslashChar
  else if c = '/' then some '/'
  else if c = 'n' then some (Char.ofNat 10)
  else if c = 't' then some (Char.ofNat 9)
  else if c = 'r' then some (Char.ofNat 13)
  else if c = 'b' then some (Char.ofNat 8)
  else if c = 'f' then some (Char.ofNat 12)
  else none

/-- Parses the body of a JSON string after its opening quote, returning
the decoded characters and the input after the closing quote. -/
def parseStringChars : List Char → Option (List Char × List Char)
  | [] => none
  | c :: cs =>
    if c = quoteChar then some ([], cs)
    else if c = backslashChar then
      match cs with
      | [] => none
      | e :: cs2 =>
        match decodeEscape e with
        | none => none
        | some d =>
          match parseStringChars cs2 with
          | none => none
          | some (body, rest) => some (d :: body, rest)
    else
      match parseStringChars cs with
      | none => none
      | some (body, rest) => some (c :: body, rest)

def digitsToNat (ds : List Char) : ℕ :=
  ds.foldl (fun acc c => 10 * acc + (c.toNat - 48)) 0

/-- Parses a decimal JSON number (optional sign, digits, optional
fractional part). -/
def parseNumber (cs : List Char) : Option (ℚ × List Char) :=
  let (neg, cs1) :=
    match cs with
    | c :: rest => if c = '-' then (true, rest) else (false, cs)
    | [] => (false, cs)
  let intPart := cs1.takeWhile Char.isDigit
  let cs2 := cs1.dropWhile Char.isDigit
  if intPart.isEmpty then none
  else
    let ipVal : ℚ := (digitsToNat intPart : ℚ)
    match cs2 with
    | c :: rest =>
      if c = '.' then
        let fracPart := rest.takeWhile Char.isDigit
        let cs3 := rest.dropWhile Char.isDigit
        if fracPart.isEmpty then none
        else
          let v := ipVal + (digitsToNat fracPart : ℚ) / ((10 : ℚ) ^ fracPart.length)
          some (if neg then -v else v, cs3)
      else some (if neg then -ipVal else ipVal, cs2)
    | [] => some (if neg then -ipVal else ipVal, [])

mutual

/-- Fuel-indexed recursive-descent JSON value grammar. -/
def parseVal : ℕ → List Char → Option (PyVal × List Char)
  | 0, _ => none
  | fuel + 1, cs =>
    match skipWs cs with
    | [] => none
    | c :: rest =>
      if c = quoteChar then
        match parseStringChars rest with
        | some (body, rest2) => some (PyVal.str ⟨body⟩, rest2)
        | none => none
      else if c = lbrace then
        match skipWs rest with
        | [] => none
        | d :: rest2 =>
          if d = rbrace then some (PyVal.dict [], rest2)
          else
            match parseMembers fuel (d :: rest2) with
            | some (kvs, rest3) => some (PyVal.dict kvs, rest3)
            | none => none
      else if c = '[' then
        match skipWs rest with
        | [] => none
        | d :: rest2 =>
          if d = ']' then some (PyVal.arr [], rest2)
          else
            match parseElems fuel (d :: rest2) with
            | some (vs, rest3) => some (PyVal.arr vs, rest3)
            | none => none
      else if c = 't' then
        match rest with
        | 'r' :: 'u' :: 'e' :: rest2 => some (PyVal.bool true, rest2)
        | _ => none
      else if c = 'f' then
        match rest with
        | 'a' :: 'l' :: 's' :: 'e' :: rest2 => some (PyVal.bool false, rest2)
        | _ => none
      else if c = 'n' then
        match rest with
        | 'u' :: 'l' :: 'l' :: rest2 => some (PyVal.null, rest2)
        | _ => none
      else
        match parseNumber (c :: rest) with
        | some (q, rest2) => some (PyVal.num q, rest2)
        | none => none

/-- Object members `"key": value (, "key": value)*` up to the closing
brace. -/
def parseMembers : ℕ → List Char → Option (List (String × PyVal) × List Char)
  | 0, _ => none
  | fuel + 1, cs =>
    match skipWs cs with
    | [] => none
    | c :: rest =>
      if c = quoteChar then
        match parseStringChars rest with
        | none => none
        | some (keyChars, afterKey) =>
          match skipWs afterKey with
          | [] => none
          | d :: afterColon =>
            if d = ':' then
              match parseVal fuel afterColon with
              | none => none
              | some (v, afterVal) =>
                match skipWs afterVal with
                | [] => none
                | e :: afterSep =>
                  if e = ',' then
                    match parseMembers fuel afterSep with
                    | some (kvs, rest2) => some ((⟨keyChars⟩, v) :: kvs, rest2)
                    | none => none
                  else if e = rbrace then some ([(⟨keyChars⟩, v)], afterSep)
                  else none
            else none
      else none

/-- Array elements `value (, value)*` up to the closing bracket. -/
def parseElems : ℕ → List Char → Option (List PyVal × List Char)
  | 0, _ => none
  | fuel + 1, cs =>
    match parseVal fuel cs with
    | none => none
    | some (v, afterVal) =>
      match skipWs afterVal with
      | [] => none
      | e :: afterSep =>
        if e = ',' then
          match parseElems fuel afterSep with
          | some (vs, rest2) => some (v :: vs, rest2)
          | none => none
        else if e = ']' then some ([v], afterSep)
        else none

end

/-- `json.loads` on a character list: the whole input must be one JSON
value (surrounding whitespace allowed). -/
def json_loads (cs : List Char) : Option PyVal :=
  match parseVal (2 * cs.length + 4) cs with
  | some (v, rest) => if (skipWs rest).isEmpty then some v else none
  | none => none

/-- The regex search `\x7b.*\x7d` with DOTALL: the substring from the
first opening brace to the last closing brace, when the latter follows
the former. -/
def extract_json (cs : List Char) : Option (List Char) :=
  let s1 := cs.dropWhile (fun c => !(c = lbrace))
  match s1 with
  | [] => none
  | _ :: _ =>
    let s2 := (s1.reverse.dropWhile (fun c => !(c = rbrace))).reverse
    if s2.isEmpty then none else some s2

/-- `_safe_json_parse`: regex-extract a JSON object substring and decode
it; every failure path returns the empty dict and nothing is raised. -/
def safe_json_parse (content : String) : PyVal :=
  match extract_json content.data with
  | none => PyVal.dict []
  | some sub =>
    match json_loads sub with
    | some v => v
    | none => PyVal.dict []

/-! ### Keyword suggestions
Embedding of `YandexDirectAPIClient.get_keyword_suggestions`
(`yandex_direct_integration.py`, lines 50-100) and
`ProfessionalCampaignManager._get_yandex_keyword_suggestions`
(`professional_campaign_manager.py`, lines 380-419).  A response in which
the `"KeywordsByKeywordSearchResults"` key (or a nested `"Keywords"` key)
is absent behaves exactly like one in which the corresponding list is
empty, so both are modelled as lists. -/

/-- One `keyword_data` dictionary of the remote response; `none` fields
model absent keys, read with the `.get` defaults of the source. -/
structure RawKeywordData where
  Keyword : Option String
  SearchVolume : Option ℤ
  Competition : Option String
  AverageBid : Option ℤ
deriving Repr, DecidableEq

/-- One suggestion dictionary built by the client (lines 87-93). -/
structure RawSuggestion where
  keyword : String
  search_volume : ℤ
  competition : String
  average_bid : ℚ
  source : String
deriving Repr, DecidableEq

/-- `get_keyword_suggestions`: on any exception from the request the
`except` clause logs and returns the empty list; otherwise every
`keyword_data` of every search result is reformatted, with `AverageBid`
converted from micro-currency by true division. -/
def get_keyword_suggestions
    (resp : Except String (List (List RawKeywordData))) : List RawSuggestion :=
  match resp with
  | .error _ => []
  | .ok results =>
    (results.map (fun kws => kws.map (fun kd =>
      ({ keyword := kd.Keyword.getD ""
       , search_volume := kd.SearchVolume.getD 0
       , competition := kd.Competition.getD "UNKNOWN"
       , average_bid := (kd.AverageBid.getD 0 : ℚ) / 1000000
       , source := "yandex_direct_api" } : RawSuggestion)))).flatten

/-- One formatted suggestion dictionary of the manager (lines 393-399). -/
structure FormattedSuggestion where
  keyword : String
  bid : ℤ
  search_volume : ℤ
  competition : String
  source : String
deriving Repr, DecidableEq

/-- The `except` branch of `_get_yandex_keyword_suggestions`
(lines 408-416): a local fallback built from the first five seed
keywords.  In the embedding the `try` body below is total, so this branch
is never taken by `get_yandex_keyword_suggestions`. -/
def fallback_suggestions (base_keywords : List String) : List FormattedSuggestion :=
  (base_keywords.take 5).map (fun kw =>
    { keyword := kw
    , bid := 50
    , search_volume := 1000
    , competition := "MEDIUM"
    , source := "fallback" })

/-- `_get_yandex_keyword_suggestions`: reformats whatever the client
returned; the client already swallowed any remote error into `[]`, and
the reformatting cannot raise, so the fallback branch is dead code for
remote failures. -/
def get_yandex_keyword_suggestions (base_keywords : List String)
    (resp : Except String (List (List RawKeywordData))) :
    List FormattedSuggestion :=
  let suggestions := get_keyword_suggestions resp
  suggestions.map (fun s =>
    { keyword := s.keyword
    , bid := pyInt s.average_bid
    , search_volume := s.search_volume
    , competition := s.competition
    , source := "yandex_api" })

/-! ### Semantic-core assembly
Embedding of `ProfessionalCampaignManager._generate_ai_keywords`
(lines 421-485) and `_create_semantic_core_with_yandex` (lines 356-378).
The AI call is an input: `.ok text` is the text of a successful response,
`.error` means the call itself raised (then the `except` branch returns
the four-key empty structure). -/

/-- The structure returned by the `except` branch of
`_generate_ai_keywords` (lines 480-485). -/
def emptyAIKeywordStructure : PyVal :=
  PyVal.dict
    [ ("high_priority", PyVal.arr [])
    , ("medium_priority", PyVal.arr [])
    , ("low_priority", PyVal.arr [])
    , ("negative_keywords", PyVal.arr []) ]

/-- `_generate_ai_keywords`: parse the response text on success (note:
`_safe_json_parse` may yield a dict without the four keys), or the empty
four-key structure when the AI call raised. -/
def generate_ai_keywords (aiResponse : Except String String) : PyVal :=
  match aiResponse with
  | .ok text => safe_json_parse text
  | .error _ => emptyAIKeywordStructure

/-- Python dict lookup (`d[k]`), last binding wins as in a dict built
from JSON. -/
def pyDictGet (kvs : List (String × PyVal)) (k : String) : Option PyVal :=
  (kvs.reverse.find? (fun kv => kv.1 == k)).map (fun kv => kv.2)

/-- Python subscription `v[k]`: `KeyError` on a missing key, `TypeError`
on a non-dict. -/
def pySubscript (v : PyVal) (k : String) : Except String PyVal :=
  match v with
  | PyVal.dict kvs =>
    match pyDictGet kvs k with
    | some x => .ok x
    | none => .error ("KeyError: " ++ k)
  | _ => .error ("TypeError: value of key is not subscriptable: " ++ k)

/-- The `SemanticCore` dataclass (lines 47-54).  Python performs no type
checking of the fields, so the tiers hold whatever value the parsed AI
structure carried. -/
structure SemanticCore where
  high_priority : PyVal
  medium_priority : PyVal
  low_priority : PyVal
  negative_keywords : PyVal
  yandex_suggestions : List FormattedSuggestion

/-- Lines 369-375: the `SemanticCore(...)` constructor call; each keyword
argument subscripts `ai_keywords`, raising `KeyError` at the first
missing key.  No normalization, deduplication, negative-keyword
filtering or emptiness check occurs. -/
def assemble_semantic_core (ai_keywords : PyVal)
    (yandex_suggestions : List FormattedSuggestion) :
    Except String SemanticCore := do
  let hp ← pySubscript ai_keywords "high_priority"
  let mp ← pySubscript ai_keywords "medium_priority"
  let lp ← pySubscript ai_keywords "low_priority"
  let neg ← pySubscript ai_keywords "negative_keywords"
  return { high_priority := hp
         , medium_priority := mp
         , low_priority := lp
         , negative_keywords := neg
         , yandex_suggestions := yandex_suggestions }

/-- `_create_semantic_core_with_yandex`: AI keyword generation, then
platform suggestions, then the constructor call. -/
def create_semantic_core_with_yandex (aiResponse : Except String String)
    (base_keywords : List String)
    (yandexResp : Except String (List (List RawKeywordData))) :
    Except String SemanticCore :=
  assemble_semantic_core (generate_ai_keywords aiResponse)
    (get_yandex_keyword_suggestions base_keywords yandexResp)

/-- Whether a tier value (a JSON array of keyword dicts) contains an
entry whose `"keyword"` field is the given text. -/
def tierMentions (tier : PyVal) (kw : String) : Bool :=
  match tier with
  | PyVal.arr items => items.any (fun it =>
      match it with
      | PyVal.dict kvs =>
        match pyDictGet kvs "keyword" with
        | some (PyVal.str s) => s == kw
        | _ => false
      | _ => false)
  | _ => false

/-- Whether a negative-keyword value (a JSON array of strings) contains
the given text. -/
def negativeMentions (neg : PyVal) (kw : String) : Bool :=
  match neg with
  | PyVal.arr items => items.any (fun it =>
      match it with
      | PyVal.str s => s == kw
      | _ => false)
  | _ => false

/-! ## Theorems settling the claims -/

theorem pyInt_eq_floor {q : ℚ} (h : 0 ≤ q) : pyInt q = ⌊q⌋ := if_pos h

theorem pyInt_nonpos {q : ℚ} (h : q ≤ 0) : pyInt q ≤ 0 := by
  unfold pyInt
  split
  · calc ⌊q⌋ ≤ ⌊(0 : ℚ)⌋ := Int.floor_le_floor h
      _ = 0 := Int.floor_zero
  · exact Int.ceil_le.mpr (by exact_mod_cast h)

theorem pyInt_intCast (n : ℤ) : pyInt ((n : ℚ)) = n := by
  unfold pyInt
  split
  · exact Int.floor_intCast n
  · exact Int.ceil_intCast n

theorem optimize_keyword_bids_ok (keyword_bids : List KeywordBid)
    (target_position : ℤ) (h : ∀ kd ∈ keyword_bids, kd.bid ≠ 0) :
    optimize_keyword_bids keyword_bids target_position =
      .ok (keyword_bids.map (bidRule target_position)) := by
  induction keyword_bids with
  | nil => rfl
  | cons kd rest ih =>
    have hkd : kd.bid ≠ 0 := h kd (List.mem_cons_self _ _)
    have hrest : ∀ x ∈ rest, x.bid ≠ 0 := fun x hx => h x (List.mem_cons_of_mem _ hx)
    simp [optimize_keyword_bids, optimizeOneBid, bidRule, hkd, ih hrest]

theorem optimize_keyword_bids_zero (keyword_bids : List KeywordBid)
    (target_position : ℤ) (h : ∃ kd ∈ keyword_bids, kd.bid = 0) :
    optimize_keyword_bids keyword_bids target_position =
      .error "ZeroDivisionError" := by
  induction keyword_bids with
  | nil => exact absurd h (by simp)
  | cons kd rest ih =>
    by_cases hkd : kd.bid = 0
    · simp [optimize_keyword_bids, optimizeOneBid, hkd]
    · obtain ⟨x, hx, hx0⟩ := h
      rcases List.mem_cons.mp hx with rfl | hxr
      · exact absurd hx0 hkd
      · have hr := ih ⟨x, hxr, hx0⟩
        simp [optimize_keyword_bids, optimizeOneBid, hkd, hr]

/-- C7: on every input list whose bids are nonzero, `optimize_keyword_bids`
returns one entry per input applying the deterministic rule
(`targetRank ≤ 3`: bid × 1.2; `targetRank ≤ 6`: unchanged; otherwise
bid × 0.9) with `percentChange = (newBid − oldBid)/oldBid × 100`; in
particular targetRank 1 with bid 50 gives newBid 60 and percentChange 20,
and targetRank 8 with bid 50 gives newBid 45 and percentChange −10. -/
theorem c7_rebid_rule (keyword_bids : List KeywordBid) (target_position : ℤ)
    (h : ∀ kd ∈ keyword_bids, kd.bid ≠ 0) :
    optimize_keyword_bids keyword_bids target_position =
      .ok (keyword_bids.map (bidRule target_position)) ∧
    (∀ kd : KeywordBid, target_position ≤ 3 →
        (bidRule target_position kd).new_bid = kd.bid * (12 / 10)) ∧
    (∀ kd : KeywordBid, 3 < target_position → target_position ≤ 6 →
        (bidRule target_position kd).new_bid = kd.bid) ∧
    (∀ kd : KeywordBid, 6 < target_position →
        (bidRule target_position kd).new_bid = kd.bid * (9 / 10)) ∧
    (∀ kd : KeywordBid,
        (bidRule target_position kd).change_percent =
          ((bidRule target_position kd).new_bid - kd.bid) / kd.bid * 100) ∧
    optimize_keyword_bids [{ keyword := "phone", bid := 50 }] 1 =
      .ok [{ keyword := "phone", old_bid := 50, new_bid := 60, change_percent := 20 }] ∧
    optimize_keyword_bids [{ keyword := "phone", bid := 50 }] 8 =
      .ok [{ keyword := "phone", old_bid := 50, new_bid := 45, change_percent := -10 }] := by
  refine ⟨optimize_keyword_bids_ok keyword_bids target_position h, ?_, ?_, ?_, ?_,
    by norm_num [optimize_keyword_bids, optimizeOneBid],
    by norm_num [optimize_keyword_bids, optimizeOneBid]⟩
  · intro kd h3
    simp [bidRule, h3]
  · intro kd h3 h6
    simp [bidRule, not_le.mpr h3, h6]
  · intro kd h6
    simp [bidRule, not_le.mpr (by omega : (3 : ℤ) < target_position), not_le.mpr h6]
  · intro kd
    simp [bidRule]

/-- Witness for C7 at the concrete scenario input. -/
theorem c7_rebid_rule_witness :
    (∀ kd ∈ [({ keyword := "phone", bid := 50 } : KeywordBid)], kd.bid ≠ 0) ∧
    optimize_keyword_bids [{ keyword := "phone", bid := 50 }] 1 =
      .ok [{ keyword := "phone", old_bid := 50, new_bid := 60, change_percent := 20 }] :=
  ⟨by norm_num, (c7_rebid_rule [{ keyword := "phone", bid := 50 }] 1 (by norm_num)).2.2.2.2.2.1⟩

/-- C10: an input entry whose bid is 0 (the default for a missing `"bid"`
key) makes `optimize_keyword_bids` raise `ZeroDivisionError` while
computing the percent change; when every bid is nonzero the operation is
total and returns exactly one output entry per input entry, with the same
keywords in the same order. -/
theorem c10_zero_bid_division (keyword_bids : List KeywordBid)
    (target_position : ℤ) :
    ((∃ kd ∈ keyword_bids, kd.bid = 0) →
        optimize_keyword_bids keyword_bids target_position =
          .error "ZeroDivisionError") ∧
    ((∀ kd ∈ keyword_bids, kd.bid ≠ 0) →
        ∃ out, optimize_keyword_bids keyword_bids target_position = .ok out ∧
          out.length = keyword_bids.length ∧
          out.map OptimizedBid.keyword = keyword_bids.map KeywordBid.keyword) := by
  constructor
  · exact optimize_keyword_bids_zero keyword_bids target_position
  · intro h
    refine ⟨keyword_bids.map (bidRule target_position),
      optimize_keyword_bids_ok keyword_bids target_position h, by simp, ?_⟩
    simp only [List.map_map]
    exact List.map_congr_left (fun kd _ => rfl)

/-- Witness for C10: a concrete zero-bid input raises, a concrete
nonzero-bid input returns entry-for-entry. -/
theorem c10_zero_bid_division_witness :
    ((∃ kd ∈ [({ keyword := "a", bid := 0 } : KeywordBid)], kd.bid = 0) ∧
      optimize_keyword_bids [{ keyword := "a", bid := 0 }] 3 =
        .error "ZeroDivisionError") ∧
    ((∀ kd ∈ [({ keyword := "b", bid := 40 } : KeywordBid)], kd.bid ≠ 0) ∧
      ∃ out, optimize_keyword_bids [{ keyword := "b", bid := 40 }] 3 = .ok out ∧
        out.length = 1 ∧
        out.map OptimizedBid.keyword = ["b"]) :=
  ⟨⟨by norm_num, (c10_zero_bid_division [{ keyword := "a", bid := 0 }] 3).1 (by norm_num)⟩,
   ⟨by norm_num, by
      have h := (c10_zero_bid_division [{ keyword := "b", bid := 40 }] 3).2 (by norm_num)
      simpa using h⟩⟩

/-- C3: for every positive budget the allocation uses the fixed shares
60/30/10, each tier amount is the floor of the budget times its share,
every amount is nonnegative, their sum never exceeds the budget, and
budget 3500 yields 2100/1050/350 totalling 3500. -/
theorem c3_budget_allocation_floors (b : ℤ) (hb : 0 < b) :
    (calculate_budget_allocation b).high_priority_percent = 60 ∧
    (calculate_budget_allocation b).medium_priority_percent = 30 ∧
    (calculate_budget_allocation b).low_priority_percent = 10 ∧
    (calculate_budget_allocation b).high_priority_budget = ⌊(b : ℚ) * (6 / 10)⌋ ∧
    (calculate_budget_allocation b).medium_priority_budget = ⌊(b : ℚ) * (3 / 10)⌋ ∧
    (calculate_budget_allocation b).low_priority_budget = ⌊(b : ℚ) * (1 / 10)⌋ ∧
    0 ≤ (calculate_budget_allocation b).high_priority_budget ∧
    0 ≤ (calculate_budget_allocation b).medium_priority_budget ∧
    0 ≤ (calculate_budget_allocation b).low_priority_budget ∧
    (calculate_budget_allocation b).high_priority_budget +
        (calculate_budget_allocation b).medium_priority_budget +
        (calculate_budget_allocation b).low_priority_budget ≤ b ∧
    calculate_budget_allocation 3500 =
      { daily_budget := 3500
      , high_priority_percent := 60
      , medium_priority_percent := 30
      , low_priority_percent := 10
      , high_priority_budget := 2100
      , medium_priority_budget := 1050
      , low_priority_budget := 350 } ∧
    (2100 + 1050 + 350 : ℤ) = 3500 := by
  have hbq : (0 : ℚ) ≤ (b : ℚ) := by exact_mod_cast le_of_lt hb
  have h6 : (0 : ℚ) ≤ (b : ℚ) * (6 / 10) := by positivity
  have h3 : (0 : ℚ) ≤ (b : ℚ) * (3 / 10) := by positivity
  have h1 : (0 : ℚ) ≤ (b : ℚ) * (1 / 10) := by positivity
  have e6 : (calculate_budget_allocation b).high_priority_budget = ⌊(b : ℚ) * (6 / 10)⌋ :=
    pyInt_eq_floor h6
  have e3 : (calculate_budget_allocation b).medium_priority_budget = ⌊(b : ℚ) * (3 / 10)⌋ :=
    pyInt_eq_floor h3
  have e1 : (calculate_budget_allocation b).low_priority_budget = ⌊(b : ℚ) * (1 / 10)⌋ :=
    pyInt_eq_floor h1
  have hsum : ⌊(b : ℚ) * (6 / 10)⌋ + ⌊(b : ℚ) * (3 / 10)⌋ + ⌊(b : ℚ) * (1 / 10)⌋ ≤ b := by
    have l6 := Int.floor_le ((b : ℚ) * (6 / 10))
    have l3 := Int.floor_le ((b : ℚ) * (3 / 10))
    have l1 := Int.floor_le ((b : ℚ) * (1 / 10))
    have : ((⌊(b : ℚ) * (6 / 10)⌋ + ⌊(b : ℚ) * (3 / 10)⌋ + ⌊(b : ℚ) * (1 / 10)⌋ : ℤ) : ℚ) ≤ (b : ℚ) := by
      push_cast
      linarith
    exact_mod_cast this
  refine ⟨rfl, rfl, rfl, e6, e3, e1, ?_, ?_, ?_, ?_, ?_, by decide⟩
  · rw [e6]; exact Int.floor_nonneg.mpr h6
  · rw [e3]; exact Int.floor_nonneg.mpr h3
  · rw [e1]; exact Int.floor_nonneg.mpr h1
  · rw [e6, e3, e1]; exact hsum
  · unfold calculate_budget_allocation
    have g6 : ((3500 : ℤ) : ℚ) * (6 / 10) = ((2100 : ℤ) : ℚ) := by norm_num
    have g3 : ((3500 : ℤ) : ℚ) * (3 / 10) = ((1050 : ℤ) : ℚ) := by norm_num
    have g1 : ((3500 : ℤ) : ℚ) * (1 / 10) = ((350 : ℤ) : ℚ) := by norm_num
    rw [g6, g3, g1, pyInt_intCast, pyInt_intCast, pyInt_intCast]

/-- Witness for C3 at the concrete budget 3500. -/
theorem c3_budget_allocation_floors_witness :
    (0 : ℤ) < 3500 ∧
    calculate_budget_allocation 3500 =
      { daily_budget := 3500
      , high_priority_percent := 60
      , medium_priority_percent := 30
      , low_priority_percent := 10
      , high_priority_budget := 2100
      , medium_priority_budget := 1050
      , low_priority_budget := 350 } :=
  ⟨by decide, (c3_budget_allocation_floors 3500 (by decide)).2.2.2.2.2.2.2.2.2.2.1⟩

/-- C4 counterexample: at `dailyBudget = 0` (which is ≤ 0) the allocation
operation of `_calculate_budget_and_forecast` does not fail with any
`InvalidBudgetError` — no such error exists in the source and the
function performs no validation — it returns a `BudgetAllocation`. -/
theorem c4_counterexample :
    calculate_budget_allocation 0 =
      { daily_budget := 0
      , high_priority_percent := 60
      , medium_priority_percent := 30
      , low_priority_percent := 10
      , high_priority_budget := 0
      , medium_priority_budget := 0
      , low_priority_budget := 0 } := by
  unfold calculate_budget_allocation
  have g6 : ((0 : ℤ) : ℚ) * (6 / 10) = ((0 : ℤ) : ℚ) := by norm_num
  have g3 : ((0 : ℤ) : ℚ) * (3 / 10) = ((0 : ℤ) : ℚ) := by norm_num
  have g1 : ((0 : ℤ) : ℚ) * (1 / 10) = ((0 : ℤ) : ℚ) := by norm_num
  rw [g6, g3, g1, pyInt_intCast]

/-- C4 amended: the allocation computation performs no budget validation:
for every `dailyBudget ≤ 0` it returns an allocation carrying that budget
with non-positive tier amounts; non-positive budgets are rejected only
upstream, by the interactive input loop of `_collect_business_info`. -/
theorem c4_no_budget_validation (b : ℤ) (hb : b ≤ 0) :
    (calculate_budget_allocation b).daily_budget = b ∧
    (calculate_budget_allocation b).high_priority_budget ≤ 0 ∧
    (calculate_budget_allocation b).medium_priority_budget ≤ 0 ∧
    (calculate_budget_allocation b).low_priority_budget ≤ 0 := by
  have hbq : (b : ℚ) ≤ 0 := by exact_mod_cast hb
  refine ⟨rfl, ?_, ?_, ?_⟩
  · exact pyInt_nonpos (by nlinarith)
  · exact pyInt_nonpos (by nlinarith)
  · exact pyInt_nonpos (by nlinarith)

/-- Witness for the amended C4 at the concrete budget −10. -/
theorem c4_no_budget_validation_witness :
    (-10 : ℤ) ≤ 0 ∧
    ((calculate_budget_allocation (-10)).daily_budget = -10 ∧
      (calculate_budget_allocation (-10)).high_priority_budget ≤ 0 ∧
      (calculate_budget_allocation (-10)).medium_priority_budget ≤ 0 ∧
      (calculate_budget_allocation (-10)).low_priority_budget ≤ 0) :=
  ⟨by decide, c4_no_budget_validation (-10) (by decide)⟩

theorem collectAddResults_cons_err (msgs : List String) (rest : List AddItem) :
    collectAddResults (AddItem.err msgs :: rest) =
      ((collectAddResults rest).1, msgs ++ (collectAddResults rest).2) := rfl

theorem collectAddResults_cons_ok (i : ℤ) (rest : List AddItem) :
    collectAddResults (AddItem.ok i :: rest) =
      (i :: (collectAddResults rest).1, (collectAddResults rest).2) := rfl

/-- An `"Errors"` item with at least one message makes the collected error
list of the batch nonempty. -/
theorem collectAddResults_errs_ne_nil {items : List AddItem}
    {msgs : List String} (hmem : AddItem.err msgs ∈ items) (hne : msgs ≠ []) :
    (collectAddResults items).2 ≠ [] := by
  induction items with
  | nil => simp at hmem
  | cons it rest ih =>
    rcases List.mem_cons.mp hmem with heq | hr
    · cases heq
      rw [collectAddResults_cons_err]
      intro hcontra
      exact hne (List.append_eq_nil.mp hcontra).1
    · cases it with
      | ok i => rw [collectAddResults_cons_ok]; exact ih hr
      | err m =>
        rw [collectAddResults_cons_err]
        intro hcontra
        exact ih hr (List.append_eq_nil.mp hcontra).2
      | other => exact ih hr

/-- C1 counterexample: the campaign is created (id 111), the ad-group
batch fails for group A while sibling group B succeeds (id 222), yet
`create_full_campaign_from_strategy` raises (the run ends in an error and
issues no keyword or ad request for B), contradicting the claim that
provisioning does not raise for partial failures and reaches a
`PartiallyFailed` state holding B's keyword/ad ids — no such state exists
in the source. -/
theorem c1_counterexample :
    create_full_campaign_from_strategy
      { campaigns := .ok (some [AddItem.ok 111])
      , adgroups := .ok [AddItem.err ["ad group A rejected"], AddItem.ok 222]
      , keywords := fun _ => .ok [AddItem.ok 1]
      , ads := fun _ => .ok [AddItem.ok 2] }
      [ { keywords := ["kw a"], ads := ["ad a"] }
      , { keywords := ["kw b"], ads := ["ad b"] } ] =
      (.error "ad group creation errors",
        [APICall.campaignsAdd, APICall.adgroupsAdd]) := rfl

/-- C1 amended: when the campaign is created but any item of the ad-group
batch fails (even alongside a successful sibling item), `create_ad_groups`
raises and `create_full_campaign_from_strategy` propagates the exception:
the run returns no partial state, and no keyword or ad creation is
attempted for any branch (the request trace stops at the ad-group call). -/
theorem c1_stage_error_aborts_run (api : DirectAPI)
    (groups_config : List GroupConfig) (cid : ℤ) (restIds : List ℤ)
    (items : List AddItem) (msgs : List String)
    (hcamp : create_campaign api.campaigns = .ok (cid :: restIds))
    (hitems : api.adgroups = .ok items)
    (hmem : AddItem.err msgs ∈ items) (hne : msgs ≠ []) :
    create_full_campaign_from_strategy api groups_config =
      (.error "ad group creation errors",
        [APICall.campaignsAdd, APICall.adgroupsAdd]) := by
  have h2 : ¬((collectAddResults items).2.isEmpty = true) := by
    simp only [List.isEmpty_iff]
    exact collectAddResults_errs_ne_nil hmem hne
  have hgroups : create_ad_groups api.adgroups = .error "ad group creation errors" := by
    rw [hitems]
    simp only [create_ad_groups]
    rw [if_neg h2]
  simp [create_full_campaign_from_strategy, hcamp, hgroups]

/-- Witness for the amended C1: a two-item ad-group batch with one failed
and one successful item aborts the concrete run after the ad-group call. -/
theorem c1_stage_error_aborts_run_witness :
    create_full_campaign_from_strategy
      { campaigns := .ok (some [AddItem.ok 5])
      , adgroups := .ok [AddItem.err ["forbidden text"], AddItem.ok 7]
      , keywords := fun _ => .ok []
      , ads := fun _ => .ok [] }
      [{ keywords := ["k"], ads := ["a"] }] =
      (.error "ad group creation errors",
        [APICall.campaignsAdd, APICall.adgroupsAdd]) :=
  c1_stage_error_aborts_run _ _ 5 []
    [AddItem.err ["forbidden text"], AddItem.ok 7] ["forbidden text"]
    rfl rfl (by simp) (by simp)

/-- C2: when campaign (root resource) creation fails — the request raises,
or the response is malformed, or any item carries errors, all of which
make `create_campaign` raise, or the returned id list is empty — the run
raises and nothing downstream is attempted: the request trace contains
only the campaign call, so no ad-group, keyword or ad id exists. -/
theorem c2_root_failure_aborts (api : DirectAPI)
    (groups_config : List GroupConfig) :
    (∀ e, create_campaign api.campaigns = .error e →
        create_full_campaign_from_strategy api groups_config =
          (.error e, [APICall.campaignsAdd])) ∧
    (create_campaign api.campaigns = .ok [] →
        create_full_campaign_from_strategy api groups_config =
          (.error "IndexError", [APICall.campaignsAdd])) := by
  constructor
  · intro e hfail
    simp [create_full_campaign_from_strategy, hfail]
  · intro hempty
    simp [create_full_campaign_from_strategy, hempty]

/-- Witness for C2: a failing campaign request aborts the concrete run at
the campaign call. -/
theorem c2_root_failure_aborts_witness :
    create_full_campaign_from_strategy
      { campaigns := .error "HTTP 500"
      , adgroups := .ok [AddItem.ok 9]
      , keywords := fun _ => .ok [AddItem.ok 1]
      , ads := fun _ => .ok [AddItem.ok 2] }
      [{ keywords := ["k"], ads := ["a"] }] =
      (.error "HTTP 500", [APICall.campaignsAdd]) :=
  (c2_root_failure_aborts _ _).1 "HTTP 500" rfl

/-- A concrete AI response text: valid JSON in which the keyword "sofa"
is simultaneously a high-priority keyword and a negative keyword. -/
def conflictingAIText : String :=
  "\x7b\"high_priority\": [\x7b\"keyword\": \"sofa\", \"bid\": 100\x7d], \"medium_priority\": [], \"low_priority\": [], \"negative_keywords\": [\"sofa\"]\x7d"

/-- Whether an assembly result succeeded with a core mentioning the given
keyword both in some tier and in the negative-keyword list. -/
def coreHasNegativeConflict (r : Except String SemanticCore) (kw : String) : Bool :=
  match r with
  | .ok core =>
    (tierMentions core.high_priority kw || tierMentions core.medium_priority kw ||
      tierMentions core.low_priority kw) && negativeMentions core.negative_keywords kw
  | .error _ => false

set_option maxRecDepth 8000 in
/-- C5 counterexample: assembling from an AI response that lists "sofa"
both as a high-priority keyword and as a negative keyword succeeds and
keeps "sofa" in both places — nothing is dropped, contradicting the claim
that such a keyword never appears simultaneously in a tier and as a
negative keyword. -/
theorem c5_counterexample :
    coreHasNegativeConflict
      (create_semantic_core_with_yandex (.ok conflictingAIText) [] (.ok []))
      "sofa" = true := rfl

/-- C5 amended: `_create_semantic_core_with_yandex` copies the four
entries of the parsed AI structure into the `SemanticCore` verbatim — no
normalization, no deduplication and no negative-keyword filtering — so a
keyword text may appear in several tiers and simultaneously as a negative
keyword. -/
theorem c5_verbatim_copy_no_filtering (kvs : List (String × PyVal))
    (ys : List FormattedSuggestion) (hp mp lp neg : PyVal)
    (hh : pyDictGet kvs "high_priority" = some hp)
    (hm : pyDictGet kvs "medium_priority" = some mp)
    (hl : pyDictGet kvs "low_priority" = some lp)
    (hn : pyDictGet kvs "negative_keywords" = some neg) :
    assemble_semantic_core (PyVal.dict kvs) ys =
      .ok { high_priority := hp
          , medium_priority := mp
          , low_priority := lp
          , negative_keywords := neg
          , yandex_suggestions := ys } := by
  simp only [assemble_semantic_core, pySubscript, hh, hm, hl, hn]
  rfl

/-- Witness for the amended C5 at a concrete parsed structure whose
keyword "sofa" sits in the high tier and in the negative list. -/
theorem c5_verbatim_copy_no_filtering_witness :
    assemble_semantic_core
      (PyVal.dict
        [ ("high_priority", PyVal.arr [PyVal.dict [("keyword", PyVal.str "sofa")]])
        , ("medium_priority", PyVal.arr [])
        , ("low_priority", PyVal.arr [])
        , ("negative_keywords", PyVal.arr [PyVal.str "sofa"]) ]) [] =
      .ok { high_priority := PyVal.arr [PyVal.dict [("keyword", PyVal.str "sofa")]]
          , medium_priority := PyVal.arr []
          , low_priority := PyVal.arr []
          , negative_keywords := PyVal.arr [PyVal.str "sofa"]
          , yandex_suggestions := [] } :=
  c5_verbatim_copy_no_filtering _ _ _ _ _ _ rfl rfl rfl rfl

/-- C6 counterexample: when the AI keyword generation failed, assembly
returns a `SemanticCore` whose three tiers are all empty — it succeeds
instead of failing with an `EmptyCoreError` (no such error exists in the
source), contradicting the claimed equivalence. -/
theorem c6_counterexample :
    create_semantic_core_with_yandex (.error "openai request failed") [] (.ok []) =
      .ok { high_priority := PyVal.arr []
          , medium_priority := PyVal.arr []
          , low_priority := PyVal.arr []
          , negative_keywords := PyVal.arr []
          , yandex_suggestions := [] } := rfl

/-- C6 amended: assembly performs no emptiness check and raises no
`EmptyCoreError`: whenever the AI call fails it returns a core whose
three tiers and negative list are all empty (the only fatal assembly
condition in the source is a parsed AI structure missing one of the four
expected keys, which raises `KeyError`). -/
theorem c6_empty_core_not_fatal (e : String) (base_keywords : List String)
    (yandexResp : Except String (List (List RawKeywordData))) :
    create_semantic_core_with_yandex (.error e) base_keywords yandexResp =
      .ok { high_priority := PyVal.arr []
          , medium_priority := PyVal.arr []
          , low_priority := PyVal.arr []
          , negative_keywords := PyVal.arr []
          , yandex_suggestions :=
              get_yandex_keyword_suggestions base_keywords yandexResp } := rfl

/-- C8: at an AI response text containing no JSON object,
`_safe_json_parse` does return the empty structure (first conjunct, the
claim's premise behaves as specified), but the downstream semantic-core
construction then raises `KeyError: high_priority` instead of completing
— the code crashes where the claim (and the safe-parse intent of the
source) says it must not. -/
theorem c8_parse_failure_keyerror :
    safe_json_parse "Sorry, I cannot produce structured output." = PyVal.dict [] ∧
    create_semantic_core_with_yandex
      (.ok "Sorry, I cannot produce structured output.") [] (.ok []) =
      .error "KeyError: high_priority" := ⟨rfl, rfl⟩

/-- C9 counterexample: with a nonempty seed list and an erroring remote
suggestion call, the composed suggestion pipeline returns the empty list,
not the nonempty locally-derived fallback (which the dead `except` branch
would have produced) — contradicting the claim of a non-empty fallback. -/
theorem c9_counterexample :
    get_yandex_keyword_suggestions ["kitchen repair"] (.error "ConnectTimeout") = [] ∧
    fallback_suggestions ["kitchen repair"] =
      [{ keyword := "kitchen repair", bid := 50, search_volume := 1000
       , competition := "MEDIUM", source := "fallback" }] := ⟨rfl, rfl⟩

/-- C9 amended: when the remote suggestion call is unavailable or raises,
planning is not aborted (the embedded pipeline is total), but the result
degrades to the empty list for every seed list: the client swallows the
error into `[]`, so the manager's non-empty fallback branch is never
reached for remote failures. -/
theorem c9_remote_error_yields_empty (base_keywords : List String) (e : String) :
    get_yandex_keyword_suggestions base_keywords (.error e) = [] := rfl

end YandexDirectAI
